import Mathlib

/-!
Verification of the FrameForge backend provider-abstraction layer.

This file gives a shallow embedding of the Python backend
(`backend/app/main.py`, `backend/app/config.py`,
`backend/app/services/factory.py`, `backend/app/services/base.py`,
`backend/app/services/google_nano_banana.py`,
`backend/app/services/fal_editor.py`) and proves theorems about the
specification's claims against that embedding.

Conventions of the embedding:
* Python `bytes` values are `List Nat` (byte values).
* Python `Optional[str]` values are `Option String`; Python truthiness of
  strings ("" and None are falsy) is `strTruthy`.
* The process environment (`os.environ` / `os.getenv`) is an explicit
  association list threaded through the functions that read or write it.
* External network/SDK effects (the Gemini stream, `fal_client.subscribe`,
  `httpx` fetches, `base64.b64decode`) are oracle parameters, so that the
  control flow around them — which is what the claims are about — is
  modelled exactly.
* Python string operations used by the source (`strip`, `lower`,
  `startswith`, `split(sep, 1)`, `in`, slicing) are re-implemented over
  `List Char` for the ASCII inputs this program deals with.
-/

/-- Python `bytes` as a list of byte values. -/
abbrev Bytes := List Nat

/-- Truthiness of a Python `Optional[str]`: `None` and `""` are falsy. -/
def strTruthy : Option String → Bool
  | none => false
  | some s => !s.data.isEmpty

/-- Python `a or b` over `Optional[str]` values. -/
def pyOr (a b : Option String) : Option String :=
  if strTruthy a then a else b

/-- Python `a or b` where `a : Optional[str]` and `b` is a string literal
(e.g. `provider or "google"` in `main.py`). -/
def pyOrStr (a : Option String) (b : String) : String :=
  match a with
  | none => b
  | some s => if s.data.isEmpty then b else s

/-- Python `a or b` over plain strings (`provider_name or "google"` in
`factory.get_editor`). -/
def pyOrStrS (a b : String) : String :=
  if a.data.isEmpty then b else a

/-- The ASCII whitespace stripped by Python `str.strip()` (the source only
ever strips ASCII header/identifier text). -/
def isPySpace (c : Char) : Bool :=
  c == ' ' || c == '\t' || c == '\n' || c == '\r' || c == '\x0b' || c == '\x0c'

/-- Python `str.strip()`. -/
def pyStrip (s : String) : String :=
  String.mk (((s.data.dropWhile isPySpace).reverse.dropWhile isPySpace).reverse)

/-- ASCII lowering of one character, as Python `str.lower()` acts on the
ASCII identifiers and header schemes this program handles. -/
def pyLowerChar : Char → Char
  | 'A' => 'a' | 'B' => 'b' | 'C' => 'c' | 'D' => 'd' | 'E' => 'e'
  | 'F' => 'f' | 'G' => 'g' | 'H' => 'h' | 'I' => 'i' | 'J' => 'j'
  | 'K' => 'k' | 'L' => 'l' | 'M' => 'm' | 'N' => 'n' | 'O' => 'o'
  | 'P' => 'p' | 'Q' => 'q' | 'R' => 'r' | 'S' => 's' | 'T' => 't'
  | 'U' => 'u' | 'V' => 'v' | 'W' => 'w' | 'X' => 'x' | 'Y' => 'y'
  | 'Z' => 'z'
  | c => c

/-- Python `str.lower()`. -/
def pyLower (s : String) : String :=
  String.mk (s.data.map pyLowerChar)

/-- Python `s.startswith(pre)`. -/
def pyStartsWith (s pre : String) : Bool :=
  pre.data.isPrefixOf s.data

/-- Everything after the first occurrence of `sep`, or `none` when `sep`
does not occur (the second component of Python `s.split(sep, 1)`). -/
def afterFirst (sep : Char) : List Char → Option (List Char)
  | [] => none
  | c :: t => if c = sep then some t else afterFirst sep t

/-- Everything before the first occurrence of `sep` (the first component of
Python `s.split(sep, 1)`; the whole list when `sep` does not occur). -/
def beforeFirst (sep : Char) : List Char → List Char
  | [] => []
  | c :: t => if c = sep then [] else c :: beforeFirst sep t

/-- Python `s.split(sep, 1)` when it yields two components, `none` when
`sep` does not occur (so two-target unpacking would raise `ValueError`). -/
def pySplitOnce (sep : Char) (s : String) : Option (String × String) :=
  (afterFirst sep s.data).map (fun rest => (String.mk (beforeFirst sep s.data), String.mk rest))

/-- Auxiliary for Python substring containment. -/
def substrAux (needle : List Char) : List Char → Bool
  | [] => needle.isEmpty
  | c :: t => needle.isPrefixOf (c :: t) || substrAux needle t

/-- Python `needle in hay` on strings. -/
def pyInStr (needle hay : String) : Bool :=
  substrAux needle.data hay.data

/-- The process environment, `os.environ`, as an association list.
`os.getenv` reads the most recent binding. -/
abbrev Env := List (String × String)

/-- Python `os.getenv(k)`. -/
def envGet (env : Env) (k : String) : Option String :=
  match env with
  | [] => none
  | (k', v) :: rest => if k' = k then some v else envGet rest k

/-- Python `os.environ[k] = v`. -/
def envSet (env : Env) (k v : String) : Env :=
  (k, v) :: env

/-- `config.Settings` (config.py), a pydantic-v2 `BaseSettings`.
`config.py` declares exactly `google_api_key`, `google_model_id` and
`allowed_origins`.  The adapters also access `settings.gemini_api_key`
(google_nano_banana.py line 35) and `settings.fal_key` (fal_editor.py
line 28), which are NOT declared fields: under pydantic v2, reading an
undeclared attribute raises `AttributeError`.  The only way a readable
`fal_key` attribute comes into existence is `main.py`'s
`model_copy(update={"fal_key": token})`, which stores the token in the
copy's `__dict__`.  The `fal_key` field below models that attribute:
`none` means the attribute is absent (access raises), `some tok` means it
was injected by the override resolver.  `gemini_api_key` has no field at
all: accessing it always raises. -/
structure Settings where
  google_api_key : Option String := none
  fal_key : Option String := none
  google_model_id : String := "gemini-2.5-flash-image-preview"
  allowed_origins : List String :=
    ["http://localhost:5173", "http://127.0.0.1:5173",
     "http://localhost:3000", "http://127.0.0.1:3000"]
deriving DecidableEq

/-- A baseline `Settings()` with no keys configured. -/
def defaultSettings0 : Settings := {}

/-- The scheme-stripping loop of `main.edit_image` (main.py lines 61-64):
`for prefix in ("bearer ", "key "): if token.lower().startswith(prefix):
token = token[len(prefix):].strip(); break`. -/
def stripSchemeToken (token : String) : String :=
  if pyStartsWith (pyLower token) "bearer " then pyStrip (String.mk (token.data.drop 7))
  else if pyStartsWith (pyLower token) "key " then pyStrip (String.mk (token.data.drop 4))
  else token

/-- The credential override resolver of `main.edit_image` (main.py lines
59-67): derives the per-request effective settings from the `authorization`
header; `model_copy(update={"fal_key": token})` is the functional update. -/
def resolveRequestSettings (settings : Settings) (auth_header : Option String) : Settings :=
  match auth_header with
  | none => settings
  | some h =>
    if h.data.isEmpty then settings
    else if (stripSchemeToken (pyStrip h)).data.isEmpty then settings
    else { settings with fal_key := some (stripSchemeToken (pyStrip h)) }

/-- The adapter classes that appear as values of the static provider table
(factory.py imports `GoogleNanoBananaEditor`; `QwenEditor` and
`KontextProEditor` are the placeholder adapter classes shipped in
services/qwen_editor.py and services/kontext_pro_editor.py). -/
inductive ProviderClass
  | GoogleNanoBananaEditor
  | QwenEditor
  | KontextProEditor
deriving DecidableEq

/-- `PROVIDERS` (factory.py lines 9-13): the static provider table.  Its
only entries are the canonical `"google"` key and the `"nano-banana"`
alias; the source has no entries for the placeholder adapters. -/
def PROVIDERS : List (String × ProviderClass) :=
  [("google", ProviderClass.GoogleNanoBananaEditor),
   ("nano-banana", ProviderClass.GoogleNanoBananaEditor)]

/-- Python `dict.get` over the association-list model of `PROVIDERS`. -/
def lookupTable (t : List (String × ProviderClass)) (k : String) : Option ProviderClass :=
  match t with
  | [] => none
  | (k', v) :: rest => if k' = k then some v else lookupTable rest k

/-- The Python exception kinds raised along the modelled paths. -/
inductive PyExc
  | NotImplementedError (msg : String)
  | RuntimeError (msg : String)
  | AttributeError (msg : String)
  | IndexError (msg : String)
deriving DecidableEq

deriving instance DecidableEq for Except

/-- `str(e)` for the exceptions above (used by the endpoint's handlers). -/
def pyExcMsg : PyExc → String
  | PyExc.NotImplementedError m => m
  | PyExc.RuntimeError m => m
  | PyExc.AttributeError m => m
  | PyExc.IndexError m => m

/-- The Python values flowing through `edit_image`: either a `bytes`
object, or a `list` of `bytes` objects (the shape `main.py` passes as
`raw_images`, and which `GoogleNanoBananaEditor` returns unchanged on its
fallback path). -/
inductive PyVal
  | bytes (b : Bytes)
  | vlist (l : List Bytes)
deriving DecidableEq

/-- Magic prefix `FF D8 FF` (JPEG). -/
def jpegMagic : Bytes := [0xff, 0xd8, 0xff]

/-- Magic prefix `89 50 4E 47 0D 0A 1A 0A` (PNG), i.e. `\x89PNG\r\n\x1a\n`. -/
def pngMagic : Bytes := [0x89, 0x50, 0x4e, 0x47, 0x0d, 0x0a, 0x1a, 0x0a]

/-- ASCII `GIF87a`. -/
def gif87Magic : Bytes := [0x47, 0x49, 0x46, 0x38, 0x37, 0x61]

/-- ASCII `GIF89a`. -/
def gif89Magic : Bytes := [0x47, 0x49, 0x46, 0x38, 0x39, 0x61]

/-- ASCII `RIFF`. -/
def riffMagic : Bytes := [0x52, 0x49, 0x46, 0x46]

/-- ASCII `WEBP`. -/
def webpMagic : Bytes := [0x57, 0x45, 0x42, 0x50]

/-- `_guess_mime` (google_nano_banana.py lines 10-21) on a `bytes` buffer.
Note the WEBP branch requires `len(data) > 12`, i.e. at least 13 bytes. -/
def _guess_mime (data : Bytes) : String :=
  if data.isEmpty then "application/octet-stream"
  else if jpegMagic.isPrefixOf data then "image/jpeg"
  else if pngMagic.isPrefixOf data then "image/png"
  else if gif87Magic.isPrefixOf data || gif89Magic.isPrefixOf data then "image/gif"
  else if data.length > 12 ∧ data.take 4 = riffMagic ∧ (data.drop 8).take 4 = webpMagic then
    "image/webp"
  else "application/octet-stream"

/-- `_guess_mime` applied to an arbitrary Python value, as it happens in
`GoogleNanoBananaEditor.edit_image` where `image_bytes` is in fact the
list `main.py` passed: `if not data` accepts an empty list (falsy), but a
non-empty list has no `.startswith` attribute and raises. -/
def pyGuessMime : PyVal → Except PyExc String
  | PyVal.bytes b => Except.ok (_guess_mime b)
  | PyVal.vlist [] => Except.ok "application/octet-stream"
  | PyVal.vlist (_ :: _) =>
    Except.error (PyExc.AttributeError "'list' object has no attribute 'startswith'")

/-- `GoogleNanoBananaEditor.__init__` key resolution (google_nano_banana.py
lines 33-38): `settings.google_api_key or settings.gemini_api_key or
os.getenv("GOOGLE_API_KEY") or os.getenv("GEMINI_API_KEY")`.  When
`google_api_key` is truthy the `or` chain short-circuits to it; otherwise
Python next evaluates `settings.gemini_api_key`, an attribute `Settings`
does not declare, so the constructor raises `AttributeError` and the two
`os.getenv` fallbacks of the source line are dead code. -/
def googleApiKey (settings : Settings) (_env : Env) : Except PyExc (Option String) :=
  if strTruthy settings.google_api_key then Except.ok settings.google_api_key
  else Except.error (PyExc.AttributeError "'Settings' object has no attribute 'gemini_api_key'")

/-- `GoogleNanoBananaEditor.__init__` model-id resolution
(google_nano_banana.py lines 39-41): `settings.google_model_id or
os.getenv("GOOGLE_MODEL_ID", "gemini-2.5-flash-image-preview")`
(`google_model_id` is a declared field, so this is total). -/
def googleModelId (settings : Settings) (env : Env) : String :=
  if settings.google_model_id.data.isEmpty then
    (envGet env "GOOGLE_MODEL_ID").getD "gemini-2.5-flash-image-preview"
  else settings.google_model_id

/-- An `inline_data` payload of a streamed Gemini chunk part. -/
structure InlineData where
  data : Bytes
  mime_type : Option String
deriving DecidableEq

/-- One part of a streamed chunk: `p.inline_data` is either absent (`none`)
or an inline payload. -/
abbrev GemPart := Option InlineData

/-- One streamed chunk, reduced to the parts list
`chunk.candidates[0].content.parts`; chunks the source's guard skips
(no candidates / no content / no parts) behave as the empty list. -/
abbrev Chunk := List GemPart

/-- One iteration of the retention loop (google_nano_banana.py lines
96-100): a part overwrites the accumulator iff it has inline data with a
truthy (non-empty) payload. -/
def updLast (acc : Option InlineData) (p : GemPart) : Option InlineData :=
  match p with
  | some inline => if inline.data.isEmpty then acc else some inline
  | none => acc

/-- The chunk-iteration of `GoogleNanoBananaEditor.edit_image`
(google_nano_banana.py lines 80-100): fold every part of every chunk
through `updLast`, starting from `None`. -/
def lastInlineImage (chunks : List Chunk) : Option InlineData :=
  chunks.foldl (fun acc parts => parts.foldl updLast acc) none

/-- `GoogleNanoBananaEditor.edit_image` (google_nano_banana.py lines
44-107).  `image_bytes` is whatever Python value the caller passed
(`main.py` passes the list of raw images).  `sdkOk` models whether
`from google import genai` succeeds; `chunks` is the oracle for the
streamed generation call. -/
def googleEditImage (api_key : Option String) (image_bytes : PyVal) (_prompt : String)
    (sdkOk : Bool) (chunks : List Chunk) : Except PyExc (PyVal × Option String) :=
  if !strTruthy api_key then Except.ok (image_bytes, none)
  else if !sdkOk then
    Except.error (PyExc.RuntimeError "google-genai is not installed. Add it to dependencies and install.")
  else
    match pyGuessMime image_bytes with
    | Except.error e => Except.error e
    | Except.ok _input_mime =>
      match lastInlineImage chunks with
      | some inline => Except.ok (PyVal.bytes inline.data, inline.mime_type)
      | none => Except.error (PyExc.RuntimeError "No edited image returned from Gemini stream.")

/-- Whether a part carries inline image data (a present `inline_data` with
a truthy payload), and if so which. -/
def isImagePart : GemPart → Option InlineData
  | some inline => if inline.data.isEmpty then none else some inline
  | none => none

/-- Specification-side description of "the last part carrying inline image
data": the rightmost part whose inline payload is non-empty. -/
def lastImage : List GemPart → Option InlineData
  | [] => none
  | p :: t => Option.or (lastImage t) (isImagePart p)

/-- All parts of all chunks, in stream order. -/
def allParts (chunks : List Chunk) : List GemPart :=
  chunks.foldr (fun c acc => c ++ acc) []

/-- `FalImageEditor.__init__` key resolution (fal_editor.py lines 25-29):
`(settings.fal_key if settings else None) or os.getenv("FAL_KEY")`
(the factory always passes a settings object).  `settings.fal_key` is an
attribute that exists only on override-injected copies: reading it on any
other settings object raises `AttributeError`, so the `os.getenv`
fallback of the source line only runs for an injected (and in practice
always truthy) token. -/
def falApiKey (settings : Settings) (env : Env) : Except PyExc (Option String) :=
  match settings.fal_key with
  | some t => Except.ok (pyOr (some t) (envGet env "FAL_KEY"))
  | none => Except.error (PyExc.AttributeError "'Settings' object has no attribute 'fal_key'")

/-- A constructed adapter instance: the result of a successful
`factory.get_editor` call.  `google` and `fal` capture the state their
constructors computed (api key, and model id or model path); `qwen` and
`kontext` are the argument-free placeholder constructions (`cls()`). -/
inductive Editor
  | google (api_key : Option String) (model_id : String)
  | fal (model_path : String) (api_key : Option String)
  | qwen
  | kontext
deriving DecidableEq

/-- `GoogleNanoBananaEditor(settings)`: the constructor resolves the api
key (which may raise `AttributeError`) and the model id. -/
def googleInit (settings : Settings) (env : Env) : Except PyExc Editor :=
  (googleApiKey settings env).map (fun k => Editor.google k (googleModelId settings env))

/-- `FalImageEditor(model_path=..., settings=...)`: the constructor reads
`settings.fal_key` unconditionally (which may raise `AttributeError`). -/
def falInit (model_path : String) (settings : Settings) (env : Env) : Except PyExc Editor :=
  (falApiKey settings env).map (fun k => Editor.fal model_path k)

/-- `factory.get_editor` (factory.py lines 21-32).  In the `fal:` branch
the colon is guaranteed by the `startswith` guard, so `split(":", 1)[1]`
is the (always-present) remainder after the first colon; `.getD []` is the
unreachable no-colon case (Python would raise `IndexError` there).  The
result is fallible because the adapter constructors can raise. -/
def get_editor (provider_name : String) (settings : Settings) (env : Env) :
    Except PyExc Editor :=
  let name := pyStrip (pyOrStrS provider_name "google")
  if pyStartsWith (pyLower name) "fal:" then
    falInit (String.mk ((afterFirst ':' name.data).getD [])) settings env
  else
    match (lookupTable PROVIDERS (pyLower name)).getD ProviderClass.GoogleNanoBananaEditor with
    | ProviderClass.GoogleNanoBananaEditor => googleInit settings env
    | ProviderClass.QwenEditor => Except.ok Editor.qwen
    | ProviderClass.KontextProEditor => Except.ok Editor.kontext

/-- The standard base64 alphabet. -/
def b64Char (n : Nat) : Char :=
  "ABCDEFGHIJKLMNOPQRSTUVWXYZabcdefghijklmnopqrstuvwxyz0123456789+/".data.getD n 'A'

/-- Standard base64 encoding of a byte list (`base64.b64encode`). -/
def b64EncodeGo : Bytes → List Char
  | [] => []
  | [a] => [b64Char (a / 4), b64Char (a % 4 * 16), '=', '=']
  | [a, b] => [b64Char (a / 4), b64Char (a % 4 * 16 + b / 16), b64Char (b % 16 * 4), '=']
  | a :: b :: c :: rest =>
    [b64Char (a / 4), b64Char (a % 4 * 16 + b / 16), b64Char (b % 16 * 4 + c / 64),
     b64Char (c % 64)] ++ b64EncodeGo rest

/-- The inline mime sniffing of `FalImageEditor.edit_image` (fal_editor.py
lines 47-54): defaults to JPEG, recognises only PNG, JPEG and GIF. -/
def falSniffMime (b : Bytes) : String :=
  if pngMagic.isPrefixOf b then "image/png"
  else if jpegMagic.isPrefixOf b then "image/jpeg"
  else if gif87Magic.isPrefixOf b || gif89Magic.isPrefixOf b then "image/gif"
  else "image/jpeg"

/-- `f"data:{mime};base64,{base64.b64encode(img_bytes).decode('ascii')}"`
(fal_editor.py line 55). -/
def dataUri (b : Bytes) : String :=
  "data:" ++ falSniffMime b ++ ";base64," ++ String.mk (b64EncodeGo b)

/-- The request-argument dictionaries built by `FalImageEditor.edit_image`
(fal_editor.py lines 57-73): either the single-image shape keyed
`image_url` or the multi-image shape keyed `image_urls`, both with
`output_format` and `sync_mode`. -/
inductive FalArgs
  | imageUrl (prompt : String) (image_url : String) (output_format : String) (sync_mode : Bool)
  | imageUrls (prompt : String) (image_urls : List String) (output_format : String) (sync_mode : Bool)
deriving DecidableEq

/-- A value found under one of the result keys `"image"` / `"result"`, or
an entry of `"images"`: absent, present but not a dict, or a dict whose
`.get("url")` is the given optional string. -/
inductive FalField
  | absent
  | notDict
  | dict (url : Option String)
deriving DecidableEq

/-- The `"images"` key of a FAL result: absent, present but not a list, or
a list of entries. -/
inductive FalImages
  | absent
  | notList
  | list (entries : List FalField)
deriving DecidableEq

/-- The result object returned by `fal_client.subscribe`, reduced to what
`FalImageEditor.edit_image` inspects. -/
structure FalResult where
  isDict : Bool := true
  images : FalImages := FalImages.absent
  image : FalField := FalField.absent
  result : FalField := FalField.absent

/-- Python `if url:` filtering of an extracted url. -/
def urlTruthy : Option String → List String
  | some u => if u.data.isEmpty then [] else [u]
  | none => []

/-- The candidate-URL extraction of `FalImageEditor.edit_image`
(fal_editor.py lines 85-100): in order, the url of `result["images"][0]`,
of `result["image"]`, and of `result["result"]`, keeping only truthy urls
from dict-shaped descriptors. -/
def extractUrls (r : FalResult) : List String :=
  if !r.isDict then []
  else
    (match r.images with
     | FalImages.list (first :: _) =>
       (match first with
        | FalField.dict u => urlTruthy u
        | _ => [])
     | _ => []) ++
    (match r.image with
     | FalField.dict u => urlTruthy u
     | _ => []) ++
    (match r.result with
     | FalField.dict u => urlTruthy u
     | _ => [])

/-- The external effects of `FalImageEditor.edit_image`: whether
`import fal_client` succeeds, the outcome of `fal_client.subscribe`, of
`base64.b64decode` on the payload of a data URI, and of the `httpx` GET of
a URL (content bytes and the response's `content-type` header). -/
structure FalExt where
  sdkOk : Bool
  subscribe : FalArgs → Except String FalResult
  b64decode : String → Except String Bytes
  httpGet : String → Except String (Bytes × Option String)

/-- Python `lst[0]` (raises `IndexError` on an empty list). -/
def pyHead {α : Type} : List α → Except PyExc α
  | [] => Except.error (PyExc.IndexError "list index out of range")
  | a :: _ => Except.ok a

/-- The body of `FalImageEditor.edit_image._run_sync` after the import and
environment-write steps (fal_editor.py lines 46-126): build the data URIs
and the argument shape, submit, extract candidate URLs, decode a data URI
locally or fetch over HTTP, and fall back to the first input on any
caught failure. -/
def falRunSync (model_path : String) (image_bytes : List Bytes) (prompt : String)
    (ext : FalExt) : Except PyExc (Bytes × Option String) :=
  let data_uris := image_bytes.map dataUri
  let argsE : Except PyExc FalArgs :=
    if pyInStr "flux-kontext" model_path || pyInStr "qwen-image-edit" model_path then
      (pyHead data_uris).map (fun u => FalArgs.imageUrl prompt u "png" true)
    else Except.ok (FalArgs.imageUrls prompt data_uris "png" true)
  match argsE with
  | Except.error e => Except.error e
  | Except.ok args =>
    match ext.subscribe args with
    | Except.error e => Except.error (PyExc.RuntimeError ("FAL model invocation failed: " ++ e))
    | Except.ok result =>
      match extractUrls result with
      | [] => (pyHead image_bytes).map (fun first => (first, none))
      | url :: _ =>
        let decoded : Option (Bytes × Option String) :=
          if pyStartsWith url "data:" then
            match pySplitOnce ',' url with
            | none => none
            | some (header, b64) =>
              let mime := if pyStartsWith header "data:" && pyInStr ";base64" header then
                  String.mk ((beforeFirst ';' header.data).drop 5)
                else "image/png"
              match ext.b64decode b64 with
              | Except.ok data => some (data, some mime)
              | Except.error _ => none
          else none
        match decoded with
        | some r => Except.ok r
        | none =>
          match ext.httpGet url with
          | Except.ok (content, ct) => Except.ok (content, ct)
          | Except.error _ => (pyHead image_bytes).map (fun first => (first, none))

/-- `FalImageEditor.edit_image` (fal_editor.py lines 31-129): degraded
fallback without a key; `ProviderFailure` when the SDK is missing; writes
the key into the `FAL_KEY` environment variable when that variable is not
already (truthily) set, then runs the remote pipeline.  Returns the result
together with the process environment after the call. -/
def falEditImage (api_key : Option String) (model_path : String) (image_bytes : List Bytes)
    (prompt : String) (env : Env) (ext : FalExt) :
    Except PyExc (Bytes × Option String) × Env :=
  if !strTruthy api_key then
    ((pyHead image_bytes).map (fun first => (first, none)), env)
  else if !ext.sdkOk then
    (Except.error (PyExc.RuntimeError "fal-client is not installed. Add 'fal-client' to dependencies and install."), env)
  else
    let env' := if strTruthy api_key && !strTruthy (envGet env "FAL_KEY") then
        envSet env "FAL_KEY" (api_key.getD "")
      else env
    (falRunSync model_path image_bytes prompt ext, env')

/-- One uploaded file part: its declared content type and its bytes. -/
structure Upload where
  content_type : Option String
  data : Bytes
deriving DecidableEq

/-- The fixed default staging prompt of `main.edit_image` (main.py lines
51-55). -/
def defaultPrompt : String :=
  "Stage this room with minimalist modern furniture in neutral tones. Preserve architecture and lighting; add realistic shadows and reflections."

/-- External effects of the google adapter: whether the `google-genai`
module imports successfully, and the streamed chunks the remote call
emits. -/
structure GoogleExt where
  sdkOk : Bool
  chunks : List Chunk

/-- The HTTP outcome of `POST /api/edit`: a streamed body with a media
type, or an `HTTPException` with a status code and detail string. -/
inductive Response
  | streaming (body : PyVal) (media_type : Option String)
  | httpError (status : Nat) (detail : String)
deriving DecidableEq

/-- The `POST /api/edit` orchestrator `main.edit_image` (main.py lines
35-83): validation, prompt defaulting, provider and credential resolution,
adapter construction, dispatch, and error mapping (`NotImplementedError`
to 501, any other exception raised inside the `try` to a 500 carrying
"Editing failed: ...").  The `get_editor` call at main.py line 70 sits
outside the `try` block, so a constructor `AttributeError` is unhandled
and surfaces as the framework's plain 500 "Internal Server Error"
response.  Returns the response and the process environment after the
request.  The empty-uploads 500 arm models the unhandled `images[0]`
`IndexError` (unreachable through the framework, which requires at least
one file part). -/
def apiEdit (uploads : List Upload) (prompt provider auth_header : Option String)
    (settings : Settings) (env : Env) (gext : GoogleExt) (fext : FalExt) :
    Response × Env :=
  if uploads.any (fun u =>
      match u.content_type with
      | none => true
      | some ct => !pyStartsWith ct "image/") then
    (Response.httpError 400 "Please upload valid image files.", env)
  else
    let raw_images := uploads.map (fun u => u.data)
    if raw_images.any (fun b => b.isEmpty) then
      (Response.httpError 400 "Uploaded image is empty.", env)
    else
      let prompt' := pyOrStr prompt defaultPrompt
      let provider_name := pyOrStr provider "google"
      let request_settings := resolveRequestSettings settings auth_header
      match get_editor provider_name request_settings env with
      | Except.error _ =>
        (Response.httpError 500 "Internal Server Error", env)
      | Except.ok editor =>
        let outcome : Except PyExc (PyVal × Option String) × Env :=
          match editor with
          | Editor.google api_key _model_id =>
            (googleEditImage api_key (PyVal.vlist raw_images) prompt'
              gext.sdkOk gext.chunks, env)
          | Editor.fal mp api_key =>
            let (r, e) := falEditImage api_key mp raw_images prompt' env fext
            (r.map (fun p => (PyVal.bytes p.1, p.2)), e)
          | Editor.qwen =>
            (Except.error (PyExc.NotImplementedError "Qwen Edit provider not implemented yet."), env)
          | Editor.kontext =>
            (Except.error (PyExc.NotImplementedError "Kontext Pro provider not implemented yet."), env)
        match outcome with
        | (Except.ok (body, mime), env') =>
          (match uploads with
           | u0 :: _ => (Response.streaming body (pyOr mime u0.content_type), env')
           | [] => (Response.httpError 500 "Internal Server Error", env'))
        | (Except.error (PyExc.NotImplementedError m), env') =>
          (Response.httpError 501 m, env')
        | (Except.error e, env') =>
          (Response.httpError 500 ("Editing failed: " ++ pyExcMsg e), env')

/-- A `FalExt` whose every external call fails (used as the concrete
oracle in counterexamples and witnesses). -/
def fextFail : FalExt :=
  { sdkOk := true
    subscribe := fun _ => Except.error "boom"
    b64decode := fun _ => Except.error "bad"
    httpGet := fun _ => Except.error "down" }

/-- A `FalExt` whose subscribe call succeeds with a fixed HTTP-url result
but whose decode and fetch calls fail. -/
def fextSubOk : FalExt :=
  { sdkOk := true
    subscribe := fun _ => Except.ok { image := FalField.dict (some "http://x/y.png") }
    b64decode := fun _ => Except.error "bad"
    httpGet := fun _ => Except.error "down" }

/-- A `GoogleExt` with a working SDK and an empty stream. -/
def gextEmpty : GoogleExt := { sdkOk := true, chunks := [] }

/-- A concrete chunk stream: an early image part, a chunk without parts,
and a final chunk holding an empty-payload part followed by the last real
image part. -/
def chunksEx : List Chunk :=
  [[some { data := [1], mime_type := some "image/png" }],
   [none],
   [some { data := [], mime_type := some "ignored" },
    some { data := [2, 3], mime_type := some "image/jpeg" }]]

/-- The 12-byte buffer whose bytes 0-3 are `RIFF` and 8-11 are `WEBP`. -/
def webp12 : Bytes := riffMagic ++ [0, 0, 0, 0] ++ webpMagic

/-- C1: the static provider table has no key for either placeholder
adapter: `"kontext"` (and `"qwen"`) are not in `PROVIDERS`, so a
`POST /api/edit` with provider `"kontext"` dispatches to the default
google adapter — with a configured google key it constructs that adapter
and proceeds as a google edit, and with no key configured the constructor
raises `AttributeError` at the undeclared `gemini_api_key` (outside
main.py's `try`), surfacing as a plain 500.  Either way the claimed 501
not-implemented response never occurs. -/
theorem c1_kontext_resolves_to_google :
    lookupTable PROVIDERS "kontext" = none ∧
    lookupTable PROVIDERS "qwen" = none ∧
    get_editor "kontext" { google_api_key := some "g" } []
      = Except.ok (Editor.google (some "g") "gemini-2.5-flash-image-preview") ∧
    (apiEdit [{ content_type := some "image/jpeg", data := [255, 216, 255, 0] }]
        none (some "kontext") none defaultSettings0 [] gextEmpty fextFail).1
      = Response.httpError 500 "Internal Server Error" := by
  exact ⟨rfl, rfl, rfl, rfl⟩

/-- C2: on the missing-key fallback path the google adapter returns the
whole Python list it was passed (`return image_bytes, None`), not the
bytes of the first input image — while the fal adapter does return the
first input's bytes with a null mime on the same path. -/
theorem c2_google_fallback_returns_list :
    googleEditImage none (PyVal.vlist [[255, 216, 255], [137]]) "p" true []
      = Except.ok (PyVal.vlist [[255, 216, 255], [137]], none) ∧
    PyVal.vlist [[255, 216, 255], [137]] ≠ PyVal.bytes [255, 216, 255] ∧
    (falEditImage none "fal-ai/some-model" [[255, 216, 255], [137]] "p" [] fextFail).1
      = Except.ok ([255, 216, 255], none) := by
  exact ⟨rfl, by decide, rfl⟩

/-- C3 counterexample: with a per-request override token present
(`Authorization: Bearer tok`) and no baseline google key, the
default-provider adapter's key resolution never consults the override
(which lands in `fal_key`): the `or` chain instead evaluates the
undeclared `settings.gemini_api_key` and raises `AttributeError`, so
neither the claimed override-first order nor the degraded fallback
happens. -/
theorem c3_override_not_consulted_cex :
    (resolveRequestSettings defaultSettings0 (some "Bearer tok")).fal_key = some "tok" ∧
    googleApiKey (resolveRequestSettings defaultSettings0 (some "Bearer tok")) []
      = Except.error (PyExc.AttributeError "'Settings' object has no attribute 'gemini_api_key'") := by
  exact ⟨rfl, rfl⟩

/-- C4 counterexample: the 12-byte buffer `RIFF....WEBP` has bytes 0-3
`RIFF` and bytes 8-11 `WEBP`, yet the sniffer returns
`application/octet-stream`, because the code additionally requires
`len(data) > 12`. -/
theorem c4_twelve_byte_webp_cex :
    webp12.take 4 = riffMagic ∧ (webp12.drop 8).take 4 = webpMagic ∧
    _guess_mime webp12 = "application/octet-stream" ∧
    "application/octet-stream" ≠ "image/webp" := by
  exact ⟨by decide, by decide, by decide, by decide⟩

/-- C9 counterexample: with an API key present, a failure of the remote
invocation itself (`fal_client.subscribe` raising) is re-raised as a
`RuntimeError` and propagates out of `edit_image` — it does not degrade to
echoing the first input, contrary to the claim that any failure during
remote invocation is caught and never propagates. -/
theorem c9_invocation_failure_raises_cex :
    (falEditImage (some "k") "fal-ai/some-model" [[1, 2]] "p" [] fextFail).1
      = Except.error (PyExc.RuntimeError "FAL model invocation failed: boom") ∧
    (falEditImage (some "k") "fal-ai/some-model" [[1, 2]] "p" [] fextFail).1
      ≠ Except.ok ([1, 2], none) := by
  exact ⟨rfl, by decide⟩

/-- A non-empty character list means the string is not `""`. -/
theorem ne_empty_of_isEmpty_false {t : String} (h : t.data.isEmpty = false) : t ≠ "" := by
  intro he
  rw [he] at h
  exact absurd h (by decide)

/-- `resolveRequestSettings` either returns the baseline unchanged or the
baseline with `fal_key` overridden by a non-empty token. -/
theorem resolveRequestSettings_cases (s : Settings) (h : Option String) :
    resolveRequestSettings s h = s ∨
      ∃ tok, tok ≠ "" ∧ resolveRequestSettings s h = { s with fal_key := some tok } := by
  cases h with
  | none => exact Or.inl rfl
  | some hh =>
    simp only [resolveRequestSettings]
    by_cases h1 : hh.data.isEmpty = true
    · rw [if_pos h1]
      exact Or.inl rfl
    · rw [if_neg h1]
      by_cases h2 : (stripSchemeToken (pyStrip hh)).data.isEmpty = true
      · rw [if_pos h2]
        exact Or.inl rfl
      · rw [if_neg h2]
        exact Or.inr ⟨stripSchemeToken (pyStrip hh),
          ne_empty_of_isEmpty_false (Bool.eq_false_iff.mpr h2), rfl⟩

/-- C5: the credential override resolver strips a case-insensitive
`bearer `/`key ` scheme and trims; it never changes any baseline field
other than `fal_key`, and it either returns the baseline unchanged or a
copy with a non-empty token in `fal_key` (copy-on-override); header
`"Bearer   abc123  "` yields override `"abc123"`, header
`"notascheme xyz"` is used verbatim, and the `key` scheme is stripped
case-insensitively too. -/
theorem c5_credential_override_resolver (s : Settings) (h : Option String) :
    ((resolveRequestSettings s h).google_api_key = s.google_api_key ∧
     (resolveRequestSettings s h).google_model_id = s.google_model_id ∧
     (resolveRequestSettings s h).allowed_origins = s.allowed_origins) ∧
    (resolveRequestSettings s h = s ∨
      ∃ tok, tok ≠ "" ∧ resolveRequestSettings s h = { s with fal_key := some tok }) ∧
    resolveRequestSettings s (some "Bearer   abc123  ") = { s with fal_key := some "abc123" } ∧
    resolveRequestSettings s (some "notascheme xyz") = { s with fal_key := some "notascheme xyz" } ∧
    resolveRequestSettings s (some "kEy xyz") = { s with fal_key := some "xyz" } := by
  refine ⟨?_, resolveRequestSettings_cases s h, rfl, rfl, rfl⟩
  rcases resolveRequestSettings_cases s h with hx | ⟨tok, _, hx⟩ <;>
    rw [hx] <;> exact ⟨rfl, rfl, rfl⟩

/-- Destructing `(a :: pre).isPrefixOf l`. -/
theorem list_isPrefixOf_cons_elim {α : Type} [BEq α] [LawfulBEq α] {a : α} {pre l : List α}
    (h : (a :: pre).isPrefixOf l = true) : ∃ t, l = a :: t ∧ pre.isPrefixOf t = true := by
  cases l with
  | nil => simp [List.isPrefixOf] at h
  | cons b t =>
    simp only [List.isPrefixOf, Bool.and_eq_true, beq_iff_eq] at h
    exact ⟨t, by rw [h.1], h.2⟩

/-- ASCII lowering only identifies letters: a character lowering to `':'`
is `':'` itself. -/
theorem pyLowerChar_eq_colon {c : Char} (h : pyLowerChar c = ':') : c = ':' := by
  unfold pyLowerChar at h
  split at h <;> simp_all

/-- C6 counterexample: for a baseline configuration without an
auth-injected `fal_key` attribute, the resolver raises `AttributeError`
inside `FalImageEditor.__init__` instead of returning a broker adapter,
refuting the unconditional "the resolver returns a generic-broker
adapter". -/
theorem c6_baseline_fal_settings_raise_cex :
    get_editor "fal:fal-ai/qwen-image-edit" defaultSettings0 []
      = Except.error (PyExc.AttributeError "'Settings' object has no attribute 'fal_key'") := by
  exact rfl

/-- C6 (amended): for every identifier whose trimmed form starts with the
case-insensitive prefix `fal:`, the resolver dispatches to the
generic-broker constructor with the model path equal to exactly the
remainder of the trimmed identifier after the first colon (character-wise
`drop 4`, verbatim, no case change, no further validation); the
construction returns that adapter when the effective settings carry an
auth-injected `fal_key` attribute, and raises `AttributeError` at the
constructor's unconditional `settings.fal_key` read when they do not. -/
theorem c6_fal_dynamic_model_path (p : String) (s : Settings) (env : Env)
    (h : pyStartsWith (pyLower (pyStrip p)) "fal:" = true) :
    (∀ k, s.fal_key = some k →
      get_editor p s env = Except.ok (Editor.fal (String.mk ((pyStrip p).data.drop 4))
        (pyOr (some k) (envGet env "FAL_KEY")))) ∧
    (s.fal_key = none →
      get_editor p s env
        = Except.error (PyExc.AttributeError "'Settings' object has no attribute 'fal_key'")) := by
  have h' : ("fal:").data.isPrefixOf ((pyStrip p).data.map pyLowerChar) = true := h
  rw [show ("fal:").data = ['f', 'a', 'l', ':'] from rfl] at h'
  have hdec : ∃ c0 c1 c2 c3 r, (pyStrip p).data = c0 :: c1 :: c2 :: c3 :: r ∧
      pyLowerChar c0 = 'f' ∧ pyLowerChar c1 = 'a' ∧ pyLowerChar c2 = 'l' ∧
      pyLowerChar c3 = ':' := by
    cases hd : (pyStrip p).data with
    | nil => rw [hd] at h'; simp [List.isPrefixOf] at h'
    | cons c0 l0 =>
      cases l0 with
      | nil => rw [hd] at h'; simp [List.isPrefixOf] at h'
      | cons c1 l1 =>
        cases l1 with
        | nil => rw [hd] at h'; simp [List.isPrefixOf] at h'
        | cons c2 l2 =>
          cases l2 with
          | nil => rw [hd] at h'; simp [List.isPrefixOf] at h'
          | cons c3 l3 =>
            rw [hd] at h'
            simp only [List.map, List.isPrefixOf, Bool.and_eq_true, beq_iff_eq] at h'
            exact ⟨c0, c1, c2, c3, l3, rfl, h'.1.symm, h'.2.1.symm, h'.2.2.1.symm,
              h'.2.2.2.1.symm⟩
  obtain ⟨c0, c1, c2, c3, r, hd, hf, ha, hl, hc⟩ := hdec
  have hpne : p.data.isEmpty = false := by
    cases hp : p.data with
    | nil =>
      exfalso
      have hps : (pyStrip p).data = [] := by
        unfold pyStrip
        rw [hp]
        rfl
      rw [hd] at hps
      simp at hps
    | cons a t => rfl
  have hname : pyOrStrS p "google" = p := by
    unfold pyOrStrS
    rw [hpne]
    simp
  have h0 : ¬(c0 = ':') := by
    intro he
    rw [he] at hf
    exact absurd hf (by decide)
  have h1 : ¬(c1 = ':') := by
    intro he
    rw [he] at ha
    exact absurd ha (by decide)
  have h2 : ¬(c2 = ':') := by
    intro he
    rw [he] at hl
    exact absurd hl (by decide)
  have h3 : c3 = ':' := pyLowerChar_eq_colon hc
  have hafter : afterFirst ':' (pyStrip p).data = some ((pyStrip p).data.drop 4) := by
    rw [hd]
    simp [afterFirst, h0, h1, h2, h3]
  have hdisp : get_editor p s env = falInit (String.mk ((pyStrip p).data.drop 4)) s env := by
    simp only [get_editor, hname, h, if_true, hafter, Option.getD_some]
  constructor
  · intro k hk
    rw [hdisp]
    simp [falInit, falApiKey, hk, Except.map]
  · intro hk
    rw [hdisp]
    simp [falInit, falApiKey, hk, Except.map]

/-- C6 witness: with an auth-injected token, `"fal:fal-ai/qwen-image-edit"`
resolves to the broker adapter with model path exactly
`"fal-ai/qwen-image-edit"`. -/
theorem c6_fal_dynamic_model_path_witness :
    pyStartsWith (pyLower (pyStrip "fal:fal-ai/qwen-image-edit")) "fal:" = true ∧
    ({ fal_key := some "tok" } : Settings).fal_key = some "tok" ∧
    get_editor "fal:fal-ai/qwen-image-edit" { fal_key := some "tok" } []
      = Except.ok (Editor.fal "fal-ai/qwen-image-edit" (some "tok")) := by
  refine ⟨by decide, rfl, ?_⟩
  rw [(c6_fal_dynamic_model_path "fal:fal-ai/qwen-image-edit" { fal_key := some "tok" } []
    (by decide)).1 "tok" rfl]
  decide

/-- C7 counterexample: for a baseline configuration with no google key,
resolving an unknown identifier dispatches to
`GoogleNanoBananaEditor.__init__`, which raises `AttributeError` at the
undeclared `settings.gemini_api_key` — refuting "returns the
default-provider adapter and raises no error". -/
theorem c7_keyless_default_raises_cex :
    get_editor "Unknown-Provider" defaultSettings0 []
      = Except.error (PyExc.AttributeError "'Settings' object has no attribute 'gemini_api_key'") := by
  exact rfl

/-- C7 (amended): an identifier that does not match the `fal:` prefix rule
and whose trimmed, lowercased form is not a key of the static table
dispatches to the default-provider constructor (no resolver error of its
own), as does a missing identifier (defaulted to `"google"` by the
orchestrator); the construction returns the default google adapter when
the baseline `google_api_key` is non-empty, and raises `AttributeError`
at the undeclared `gemini_api_key` when it is absent or empty. -/
theorem c7_unknown_provider_defaults (p : String) (s : Settings) (env : Env)
    (hfal : pyStartsWith (pyLower (pyStrip (pyOrStrS p "google"))) "fal:" = false)
    (htab : lookupTable PROVIDERS (pyLower (pyStrip (pyOrStrS p "google"))) = none) :
    get_editor p s env = googleInit s env ∧
    get_editor (pyOrStr none "google") s env = googleInit s env ∧
    (strTruthy s.google_api_key = true →
      get_editor p s env = Except.ok (Editor.google s.google_api_key (googleModelId s env))) := by
  have h1 : get_editor p s env = googleInit s env := by
    simp [get_editor, hfal, htab]
  refine ⟨h1, rfl, ?_⟩
  intro hg
  rw [h1]
  simp [googleInit, googleApiKey, hg, Except.map]

/-- C7 witness: the unknown identifier `"Unknown-Provider"` is not a table
key, does not match the `fal:` rule, and with a configured google key
resolves to the default google adapter. -/
theorem c7_unknown_provider_defaults_witness :
    pyStartsWith (pyLower (pyStrip (pyOrStrS "Unknown-Provider" "google"))) "fal:" = false ∧
    lookupTable PROVIDERS (pyLower (pyStrip (pyOrStrS "Unknown-Provider" "google"))) = none ∧
    get_editor "Unknown-Provider" { google_api_key := some "g" } []
      = Except.ok (Editor.google (some "g") "gemini-2.5-flash-image-preview") := by
  refine ⟨by decide, by decide, ?_⟩
  rw [(c7_unknown_provider_defaults "Unknown-Provider" { google_api_key := some "g" } []
    (by decide) (by decide)).2.2 (by decide)]
  decide

/-- C3 (amended): the default-provider adapter's key resolution consults
only the baseline `google_api_key`: when that field is non-empty it is the
key (short-circuiting the `or` chain), and otherwise the constructor
raises `AttributeError` at the undeclared `settings.gemini_api_key`, so
the gemini/environment fallbacks written in the source and the degraded
fallback path are unreachable; the per-request credential override never
affects this choice (it only sets `fal_key`). -/
theorem c3_google_key_order (s : Settings) (env : Env) (auth : Option String) :
    googleApiKey (resolveRequestSettings s auth) env = googleApiKey s env ∧
    (strTruthy s.google_api_key = true → googleApiKey s env = Except.ok s.google_api_key) ∧
    (strTruthy s.google_api_key = false →
      googleApiKey s env
        = Except.error (PyExc.AttributeError "'Settings' object has no attribute 'gemini_api_key'")) := by
  refine ⟨?_, ?_, ?_⟩
  · rcases resolveRequestSettings_cases s auth with hx | ⟨tok, _, hx⟩ <;> simp [hx, googleApiKey]
  · intro h1
    simp [googleApiKey, h1]
  · intro h1
    simp [googleApiKey, h1]

/-- C3 witness: with a baseline google key set, that key is chosen, and
applying a bearer override changes nothing for the google adapter. -/
theorem c3_google_key_order_witness :
    googleApiKey { google_api_key := some "g" } [] = Except.ok (some "g") ∧
    googleApiKey (resolveRequestSettings { google_api_key := some "g" } (some "Bearer tok")) []
      = Except.ok (some "g") := by
  constructor
  · exact (c3_google_key_order { google_api_key := some "g" } [] none).2.1 (by decide)
  · rw [(c3_google_key_order { google_api_key := some "g" } [] (some "Bearer tok")).1]
    exact (c3_google_key_order { google_api_key := some "g" } [] (some "Bearer tok")).2.1
      (by decide)

/-- Destructing `l.take 4 = [a, b, c, d]`. -/
theorem list_take_four_elim {l : Bytes} {a b c d : Nat} (h : l.take 4 = [a, b, c, d]) :
    ∃ t, l = a :: b :: c :: d :: t := by
  cases l with
  | nil => exact absurd h (by simp)
  | cons x t0 =>
    rw [show (x :: t0).take 4 = x :: t0.take 3 from rfl] at h
    cases t0 with
    | nil => exact absurd h (by simp)
    | cons y t1 =>
      rw [show (y :: t1).take 3 = y :: t1.take 2 from rfl] at h
      cases t1 with
      | nil => exact absurd h (by simp)
      | cons z t2 =>
        rw [show (z :: t2).take 2 = z :: t2.take 1 from rfl] at h
        cases t2 with
        | nil => exact absurd h (by simp)
        | cons w t3 =>
          rw [show (w :: t3).take 1 = w :: t3.take 0 from rfl,
              show t3.take 0 = ([] : Bytes) from rfl] at h
          simp only [List.cons.injEq, and_true] at h
          obtain ⟨rfl, rfl, rfl, rfl⟩ := h
          exact ⟨t3, rfl⟩

/-- C4 (amended): the sniffer is total and returns `image/jpeg`,
`image/png` and `image/gif` on the respective magic prefixes,
`image/webp` on buffers of length at least 13 whose bytes 0-3 are `RIFF`
and 8-11 are `WEBP`, and `application/octet-stream` in every other case
(including the empty buffer). -/
theorem c4_guess_mime_cases (data : Bytes) :
    (jpegMagic.isPrefixOf data = true → _guess_mime data = "image/jpeg") ∧
    (pngMagic.isPrefixOf data = true → _guess_mime data = "image/png") ∧
    (gif87Magic.isPrefixOf data = true ∨ gif89Magic.isPrefixOf data = true →
      _guess_mime data = "image/gif") ∧
    (data.length > 12 → data.take 4 = riffMagic → (data.drop 8).take 4 = webpMagic →
      _guess_mime data = "image/webp") ∧
    (jpegMagic.isPrefixOf data = false → pngMagic.isPrefixOf data = false →
      gif87Magic.isPrefixOf data = false → gif89Magic.isPrefixOf data = false →
      ¬(data.length > 12 ∧ data.take 4 = riffMagic ∧ (data.drop 8).take 4 = webpMagic) →
      _guess_mime data = "application/octet-stream") := by
  refine ⟨?_, ?_, ?_, ?_, ?_⟩
  · intro h
    simp only [jpegMagic] at h
    obtain ⟨t, rfl, h2⟩ := list_isPrefixOf_cons_elim h
    simp [_guess_mime, jpegMagic, List.isPrefixOf, h2]
  · intro h
    simp only [pngMagic] at h
    obtain ⟨t, rfl, h2⟩ := list_isPrefixOf_cons_elim h
    simp [_guess_mime, jpegMagic, pngMagic, List.isPrefixOf, h2]
  · intro h
    rcases h with h | h
    · simp only [gif87Magic] at h
      obtain ⟨t, rfl, h2⟩ := list_isPrefixOf_cons_elim h
      simp [_guess_mime, jpegMagic, pngMagic, gif87Magic, List.isPrefixOf, h2]
    · simp only [gif89Magic] at h
      obtain ⟨t, rfl, h2⟩ := list_isPrefixOf_cons_elim h
      simp [_guess_mime, jpegMagic, pngMagic, gif87Magic, gif89Magic, List.isPrefixOf, h2]
  · intro h12 h1 h2
    have h1' := h1
    simp only [riffMagic] at h1'
    obtain ⟨t, rfl⟩ := list_take_four_elim h1'
    unfold _guess_mime
    rw [if_neg (by simp), if_neg (by simp [jpegMagic, List.isPrefixOf]),
        if_neg (by simp [pngMagic, List.isPrefixOf]),
        if_neg (by simp [gif87Magic, gif89Magic, List.isPrefixOf]),
        if_pos ⟨h12, h1, h2⟩]
  · intro hj hp h87 h89 hw
    unfold _guess_mime
    by_cases he : data.isEmpty = true
    · rw [if_pos he]
    · rw [if_neg he, if_neg (by simp [hj]), if_neg (by simp [hp]),
          if_neg (by simp [h87, h89]), if_neg hw]

/-- C4 witness: concrete buffers for the jpeg, webp (13 bytes) and
fall-through cases. -/
theorem c4_guess_mime_cases_witness :
    _guess_mime [0xff, 0xd8, 0xff, 7] = "image/jpeg" ∧
    _guess_mime (riffMagic ++ [0, 0, 0, 0] ++ webpMagic ++ [1]) = "image/webp" ∧
    _guess_mime [] = "application/octet-stream" := by
  refine ⟨?_, ?_, ?_⟩
  · exact (c4_guess_mime_cases [0xff, 0xd8, 0xff, 7]).1 (by decide)
  · exact (c4_guess_mime_cases (riffMagic ++ [0, 0, 0, 0] ++ webpMagic ++ [1])).2.2.2.1
      (by decide) (by decide) (by decide)
  · exact (c4_guess_mime_cases []).2.2.2.2 (by decide) (by decide) (by decide) (by decide)
      (by decide)

/-- `Option.or` is associative. -/
theorem option_or_assoc {α : Type} (a b c : Option α) : (a.or b).or c = a.or (b.or c) := by
  cases a <;> rfl

/-- `Option.or` with `none` on the right. -/
theorem option_or_none {α : Type} (a : Option α) : a.or none = a := by
  cases a <;> rfl

/-- One retention step equals taking the part's image (if any) before the
accumulator. -/
theorem updLast_or (acc : Option InlineData) (p : GemPart) :
    updLast acc p = Option.or (isImagePart p) acc := by
  cases p with
  | none => rfl
  | some i =>
    show (if i.data.isEmpty then acc else some i)
      = (if i.data.isEmpty then none else some i).or acc
    by_cases hi : i.data.isEmpty = true
    · rw [if_pos hi, if_pos hi]
      rfl
    · rw [if_neg hi, if_neg hi]
      rfl

/-- Folding the retention step over a parts list finds the last image part
of the list, falling back to the accumulator. -/
theorem foldl_updLast (parts : List GemPart) (acc : Option InlineData) :
    parts.foldl updLast acc = Option.or (lastImage parts) acc := by
  induction parts generalizing acc with
  | nil => rfl
  | cons p t ih =>
    rw [List.foldl_cons, ih, updLast_or,
      show lastImage (p :: t) = Option.or (lastImage t) (isImagePart p) from rfl,
      option_or_assoc]

/-- `lastImage` over an append looks in the right part first. -/
theorem lastImage_append (l1 l2 : List GemPart) :
    lastImage (l1 ++ l2) = Option.or (lastImage l2) (lastImage l1) := by
  induction l1 with
  | nil => rw [List.nil_append, show lastImage ([] : List GemPart) = none from rfl, option_or_none]
  | cons p t ih =>
    rw [List.cons_append,
      show lastImage (p :: (t ++ l2)) = Option.or (lastImage (t ++ l2)) (isImagePart p) from rfl,
      ih, option_or_assoc,
      show lastImage (p :: t) = Option.or (lastImage t) (isImagePart p) from rfl]

/-- The source's chunk-retention fold computes exactly the last
image-carrying part of the whole stream. -/
theorem lastInlineImage_eq (chunks : List Chunk) :
    lastInlineImage chunks = lastImage (allParts chunks) := by
  have h : ∀ acc, chunks.foldl (fun acc parts => parts.foldl updLast acc) acc
      = Option.or (lastImage (allParts chunks)) acc := by
    induction chunks with
    | nil => intro acc; rfl
    | cons c rest ih =>
      intro acc
      rw [List.foldl_cons, foldl_updLast, ih,
        show allParts (c :: rest) = c ++ allParts rest from rfl,
        lastImage_append, option_or_assoc]
  unfold lastInlineImage
  rw [h none, option_or_none]

/-- C8: with an API key present (and the SDK importable), the google
adapter returns the bytes and mime of the last stream part carrying
inline image data (last-wins), and fails with the `ProviderFailure`
runtime error "No edited image returned from Gemini stream." when no part
carried image data. -/
theorem c8_google_stream_last_wins (key prompt : String) (b : Bytes) (chunks : List Chunk)
    (hk : key ≠ "") :
    (∀ inline, lastImage (allParts chunks) = some inline →
      googleEditImage (some key) (PyVal.bytes b) prompt true chunks
        = Except.ok (PyVal.bytes inline.data, inline.mime_type)) ∧
    (lastImage (allParts chunks) = none →
      googleEditImage (some key) (PyVal.bytes b) prompt true chunks
        = Except.error (PyExc.RuntimeError "No edited image returned from Gemini stream.")) := by
  have hkd : key.data.isEmpty = false := by
    cases hc : key.data with
    | nil => exact absurd (String.ext (by rw [hc])) hk
    | cons a t => rfl
  have hkey : strTruthy (some key) = true := by
    show (!key.data.isEmpty) = true
    rw [hkd]
    rfl
  constructor
  · intro inline hlast
    simp [googleEditImage, hkey, pyGuessMime, lastInlineImage_eq, hlast]
  · intro hlast
    simp [googleEditImage, hkey, pyGuessMime, lastInlineImage_eq, hlast]

/-- C8 witness: on a concrete stream with an early low-resolution part, a
partless chunk, an empty-payload part and a final image part, the final
image part wins. -/
theorem c8_google_stream_last_wins_witness :
    lastImage (allParts chunksEx) = some { data := [2, 3], mime_type := some "image/jpeg" } ∧
    googleEditImage (some "k") (PyVal.bytes [9]) "p" true chunksEx
      = Except.ok (PyVal.bytes [2, 3], some "image/jpeg") := by
  constructor
  · decide
  · exact (c8_google_stream_last_wins "k" "p" [9] chunksEx (by decide)).1
      { data := [2, 3], mime_type := some "image/jpeg" } (by decide)

/-- Once `subscribe` succeeds, the remote pipeline of the fal adapter never
raises on a non-empty input list, and when both the data-URI decode and
the HTTP fetch fail it returns exactly the first input with a null mime. -/
theorem falRunSync_cases (mp prompt : String) (first : Bytes) (rest : List Bytes)
    (ext : FalExt) (r : FalResult) (hsub : ∀ a, ext.subscribe a = Except.ok r) :
    ∃ bm, falRunSync mp (first :: rest) prompt ext = Except.ok bm ∧
      ((∀ u b, ext.b64decode u ≠ Except.ok b) → (∀ u c, ext.httpGet u ≠ Except.ok c) →
        bm = (first, none)) := by
  unfold falRunSync
  by_cases hb : (pyInStr "flux-kontext" mp || pyInStr "qwen-image-edit" mp) = true <;>
    simp only [hb, if_true, if_false, ite_true, ite_false, List.map_cons, pyHead,
      Except.map, hsub] <;>
  · cases hurl : extractUrls r with
    | nil =>
      exact ⟨(first, none), rfl, fun _ _ => rfl⟩
    | cons url us =>
      by_cases hd : pyStartsWith url "data:" = true
      · simp only [hd, ite_true]
        cases hsp : pySplitOnce ',' url with
        | none =>
          cases hget : ext.httpGet url with
          | ok c =>
            obtain ⟨content, ct⟩ := c
            exact ⟨(content, ct), rfl, fun _ hg => absurd hget (hg url (content, ct))⟩
          | error e =>
            exact ⟨(first, none), rfl, fun _ _ => rfl⟩
        | some p =>
          obtain ⟨header, b64⟩ := p
          cases hbd : ext.b64decode b64 with
          | ok d =>
            refine ⟨(d, some (if pyStartsWith header "data:" && pyInStr ";base64" header then
                String.mk ((beforeFirst ';' header.data).drop 5) else "image/png")),
              ?_, fun hdec _ => absurd hbd (hdec b64 d)⟩
            simp only [hbd, Bool.false_eq_true, if_false]
          | error e =>
            cases hget : ext.httpGet url with
            | ok c =>
              obtain ⟨content, ct⟩ := c
              refine ⟨(content, ct), ?_, fun _ hg => absurd hget (hg url (content, ct))⟩
              simp only [hbd, hget, Bool.false_eq_true, if_false]
            | error e2 =>
              refine ⟨(first, none), ?_, fun _ _ => rfl⟩
              simp only [hbd, hget, Bool.false_eq_true, if_false]
      · simp only [hd, ite_false]
        cases hget : ext.httpGet url with
        | ok c =>
          obtain ⟨content, ct⟩ := c
          exact ⟨(content, ct), rfl, fun _ hg => absurd hget (hg url (content, ct))⟩
        | error e =>
          exact ⟨(first, none), rfl, fun _ _ => rfl⟩

/-- C9 (amended): with an API key present and the SDK importable, and the
remote invocation succeeding, every later failure — extraction finding no
candidate, data-URI decode failure, HTTP fetch failure — is caught:
`edit_image` never raises from that point, and when decode and fetch both
fail it returns the first input's bytes with a null mime type (degraded
success).  A failure of the invocation itself, by contrast, raises
`ProviderFailure` (see the counterexample theorem). -/
theorem c9_recoverable_failures_degrade (api_key : Option String) (mp prompt : String)
    (first : Bytes) (rest : List Bytes) (env : Env) (ext : FalExt) (r : FalResult)
    (hkey : strTruthy api_key = true) (hsdk : ext.sdkOk = true)
    (hsub : ∀ a, ext.subscribe a = Except.ok r) :
    (∀ e, (falEditImage api_key mp (first :: rest) prompt env ext).1 ≠ Except.error e) ∧
    ((∀ u b, ext.b64decode u ≠ Except.ok b) →
      (∀ u c, ext.httpGet u ≠ Except.ok c) →
      (falEditImage api_key mp (first :: rest) prompt env ext).1 = Except.ok (first, none)) := by
  have hres : (falEditImage api_key mp (first :: rest) prompt env ext).1
      = falRunSync mp (first :: rest) prompt ext := by
    simp [falEditImage, hkey, hsdk]
  obtain ⟨bm, hbm, hcond⟩ := falRunSync_cases mp prompt first rest ext r hsub
  constructor
  · intro e he
    rw [hres, hbm] at he
    cases he
  · intro hdec hget
    rw [hres, hbm, hcond hdec hget]

/-- C9 witness: with a key, a successful subscribe returning an HTTP url,
and failing decode and fetch, the adapter degrades to the first input. -/
theorem c9_recoverable_failures_degrade_witness :
    (falEditImage (some "k") "m" [[5], [6]] "p" [] fextSubOk).1 = Except.ok ([5], none) := by
  exact (c9_recoverable_failures_degrade (some "k") "m" "p" [5] [[6]] [] fextSubOk
      { image := FalField.dict (some "http://x/y.png") }
      (by decide) rfl (fun a => rfl)).2
    (fun u b h => by cases h) (fun u c h => by cases h)

/-- C10 counterexample: a concrete request does leak the key `"sekret"`
into the environment, but a later adapter construction without a key of
its own cannot pick it up: it raises `AttributeError` at the undeclared
`settings.fal_key` before the `os.getenv("FAL_KEY")` fallback could ever
run, refuting the claimed cross-request credential pickup. -/
theorem c10_env_pickup_unreachable_cex :
    envGet (falEditImage (some "sekret") "m" [[7]] "p" [] fextFail).2 "FAL_KEY"
      = some "sekret" ∧
    falApiKey defaultSettings0 (falEditImage (some "sekret") "m" [[7]] "p" [] fextFail).2
      = Except.error (PyExc.AttributeError "'Settings' object has no attribute 'fal_key'") := by
  exact ⟨rfl, rfl⟩

/-- C10 (amended): when the fal adapter runs with a non-empty API key, a
working SDK import, and `FAL_KEY` unset in the environment, `edit_image`
writes the key into `FAL_KEY` and the returned environment carries it;
however, a later adapter construction without a key of its own raises
`AttributeError` at the undeclared `settings.fal_key`, so the leaked
credential is never picked up — the `os.getenv("FAL_KEY")` fallback is
dead code and the environment write is an inert frame effect. -/
theorem c10_fal_key_env_persists (k mp prompt : String) (images : List Bytes) (env : Env)
    (ext : FalExt) (s2 : Settings)
    (hk : k ≠ "") (henv : envGet env "FAL_KEY" = none) (hsdk : ext.sdkOk = true)
    (hs2 : s2.fal_key = none) :
    envGet (falEditImage (some k) mp images prompt env ext).2 "FAL_KEY" = some k ∧
    falApiKey s2 (falEditImage (some k) mp images prompt env ext).2
      = Except.error (PyExc.AttributeError "'Settings' object has no attribute 'fal_key'") := by
  have hkd : k.data.isEmpty = false := by
    cases hc : k.data with
    | nil => exact absurd (String.ext (by rw [hc])) hk
    | cons a t => rfl
  have hkey : strTruthy (some k) = true := by
    show (!k.data.isEmpty) = true
    rw [hkd]
    rfl
  have henv2 : (falEditImage (some k) mp images prompt env ext).2
      = envSet env "FAL_KEY" k := by
    have hne : ¬(k.data = []) := by
      intro h0
      rw [h0] at hkd
      exact absurd hkd (by decide)
    simp [falEditImage, hkey, hsdk, henv, envSet, strTruthy, hne]
  have hget : envGet (envSet env "FAL_KEY" k) "FAL_KEY" = some k := by
    simp [envGet, envSet]
  refine ⟨by rw [henv2, hget], ?_⟩
  simp [falApiKey, hs2]

/-- C10 witness: a concrete request (with a subscribe-capable oracle)
leaks the override key `"sekret"` into the environment, and a fresh
keyless construction over that environment raises instead of reading it. -/
theorem c10_fal_key_env_persists_witness :
    envGet (falEditImage (some "sekret") "m" [[7]] "p" [] fextSubOk).2 "FAL_KEY"
      = some "sekret" ∧
    falApiKey defaultSettings0 (falEditImage (some "sekret") "m" [[7]] "p" [] fextSubOk).2
      = Except.error (PyExc.AttributeError "'Settings' object has no attribute 'fal_key'") := by
  exact c10_fal_key_env_persists "sekret" "m" "p" [[7]] [] fextSubOk defaultSettings0
    (by decide) rfl rfl rfl
